import Mathlib

/-!
Shallow embedding of `na22ADQ.py`, the acquisition control script of the
Acquisition repository.  The script is a single linear program: it connects to
the oscilloscope, resolves the run number, writes a logbook header, configures
the instrument (horizontal, bandwidth, vertical, trigger), publishes the
`busy` status, arms a single segmented acquisition, polls the acquisition-done
event register with an optional wall-clock deadline, publishes `writing`,
computes the trigger rate, optionally exports channel 1's waveform, and
publishes `ready`.

The embedding turns the script into a trace-producing function.  Every
observable effect is an `Event`:
  * `Event.cmdW c`  models `dpo.write(...)`: the command is sent and no
    response is read (fire-and-forget);
  * `Event.cmdQ c`  models `dpo.query(...)`: the command is sent and the
    response line is read (the caller blocks on it);
  * `Event.fOpen p m` models `open(path, mode)` on one of the three files the
    script touches;
  * `Event.logApp l` models a `logf.write(...)` on the append-mode logbook;
  * `Event.statusWr tok nl` models the body of one truncating open of the run
    status file: `write(tok)` followed, when `nl = true`, by `write("\n")`.
Python floats are modelled as `ℚ`, Python ints as `ℤ`.  The possibly infinite
polling loop takes explicit fuel; exhausted fuel yields `none`.
-/

set_option maxHeartbeats 1000000
set_option maxRecDepth 16384

namespace Na22

instance {ε α : Type} [DecidableEq ε] [DecidableEq α] : DecidableEq (Except ε α) :=
  fun x y =>
    match x, y with
    | Except.error a, Except.error b =>
      if h : a = b then Decidable.isTrue (by rw [h])
      else Decidable.isFalse (by simp [h])
    | Except.ok a, Except.ok b =>
      if h : a = b then Decidable.isTrue (by rw [h])
      else Decidable.isFalse (by simp [h])
    | Except.error _, Except.ok _ => Decidable.isFalse (by simp)
    | Except.ok _, Except.error _ => Decidable.isFalse (by simp)

/-- The three files touched by the script: the run-counter file
(`F:\OSCDAta\runNumber.txt`), the logbook (`F:\OSCDAta\Acquisition\Logbook.txt`)
and the run-status file (`F:\OSCDAta\AcquisitionRunLog.txt`). -/
inductive FPath
  | counter
  | logbook
  | runLog
  deriving DecidableEq

/-- File open modes used by the script: `open(p)` (read), `open(p, "w")`
(truncating write), `open(p, "a+")` (append). -/
inductive FMode
  | readM
  | writeM
  | appendM
  deriving DecidableEq

/-- The instrument commands the script sends, one constructor per `dpo.write`
or `dpo.query` call site, carrying the values interpolated into the command
string at that site. -/
inductive Cmd
  | idn                                  -- '*idn?'
  | stopOpc                              -- ':STOP;*OPC?'
  | timebaseRange (v : ℚ)                -- ':TIMebase:RANGe v'
  | timebaseRefPercent (p : ℤ)           -- ':TIMebase:REFerence:PERCent 70'
  | srateAuto                            -- ':ACQuire:SRATe:ANALog:AUTO ON'
  | srateQuery                           -- ':ACQuire:SRATe:ANALog?'
  | timebasePosition (v : ℚ)             -- ':TIMebase:POSition v'
  | acquireModeSegmented                 -- ':ACQuire:MODE SEGMented'
  | segmentedCount (n : ℤ)               -- ':ACQuire:SEGMented:COUNt n'
  | pointsAuto                           -- ':ACQuire:POINts:ANALog AUTO'
  | interpolateOff                       -- ':ACQuire:INTerpolate 0'
  | bandwidth (v : ℚ)                    -- ':ACQuire:BANDwidth 5.E10'
  | chScale (ch : ℕ) (v : ℚ)             -- 'CHANnelk:SCALe v'
  | chOffset (ch : ℕ) (v : ℚ)            -- 'CHANnelk:OFFSet v'
  | trigEdge (src : String) (level : ℚ)  -- 'TRIGger:MODE EDGE; :TRIGger:EDGE:SOURce src; :TRIGger:LEVel src, level'
  | trigSlope (s : String)               -- ':TRIGger:EDGE:SLOPe s;'
  | cdisplay                             -- ':CDISplay'
  | clsSingle                            -- '*CLS;:SINGle'
  | aderQuery                            -- ':ADER?'
  | opcQuery                             -- '*OPC?'
  | diskSegmentedAll                     -- ':DISK:SEGMented ALL'
  | saveWaveform (ch : ℕ) (path : String) -- ':DISK:SAVE:WAVeform CHANnelk ,"path",BIN,ON'
  deriving DecidableEq

/-- The lines the script appends to the logbook, carrying the interpolated
values (the surrounding literal text is elided; no claim concerns it). -/
inductive LogLine
  | header (runNumber : ℤ)
  | dateLine
  | dashes
  | eventsPerFile (n : ℤ)
  | horizontalHeader
  | hscaleLine (v : ℚ)
  | hoffsetLine (v : ℚ)
  | bandwidthLine
  | verticalHeader
  | ch1ScaleLine (v : ℚ)
  | ch1OffsetLine (v : ℚ)
  | triggerHeader
  | trigChannelLine (s : String)
  | trigScaleLine (v : ℚ)
  | trigEdgeLine (s : String)
  deriving DecidableEq

/-- One observable effect of the script (see the module docstring). -/
inductive Event
  | cmdW (c : Cmd)
  | cmdQ (c : Cmd)
  | fOpen (p : FPath) (m : FMode)
  | logApp (l : LogLine)
  | statusWr (token : String) (newline : Bool)
  deriving DecidableEq

/-- The command-line arguments of the script after the type conversions of
lines 66-75 (argparse itself is an external collaborator).  `runNumberParam`
is `int(args.runNumber)`, `timeoffset` is the raw `--timeoffset` value in ns
(the script multiplies it by `1e-9`), `save` is `int(args.save)`. -/
structure Cli where
  numEvents : ℤ
  runNumberParam : ℤ
  sampleRate : ℚ
  horizontalWindow : ℚ
  trigCh : String
  trig : ℚ
  trigSlope : String
  vScale1 : ℚ
  vPos1 : ℚ
  timeoffset : ℚ
  save : ℤ
  timeout : ℚ
  deriving DecidableEq

/-- The environment the script runs against: the contents of the run-counter
file (`none` = missing or unreadable), the parsed `:ADER?` responses by poll
iteration, the wall-clock elapsed time `time.time() - start` observed at the
deadline check of poll iteration `i`, and the measured run duration
`end - start`. -/
structure Env where
  counterFile : Option String
  ader : ℕ → ℤ
  elapsed : ℕ → ℚ
  duration : ℚ

/-- Terminal state of the acquisition: the poll loop exited on `:ADER? = 1`
(`completed`) or on deadline expiry with `end_early = True` (`timedOut`). -/
inductive Outcome
  | completed
  | timedOut
  deriving DecidableEq

/-- The ways the script can die with an uncaught exception before finishing:
`FileNotFoundError`/`IOError` opening the counter file, `ValueError` from
`int(file.read())`, `ZeroDivisionError` from `float(numEvents)/duration`. -/
inductive RunError
  | counterMissing
  | counterUnparsable
  | zeroDivision
  deriving DecidableEq

/-- The run report of lines 291-295: `duration = end - start`; the trigger
rate is printed only when the run did not end early, and the terminal state. -/
structure RunResult where
  duration : ℚ
  triggerRate : Option ℚ
  outcome : Outcome
  deriving DecidableEq

/-- The full observable behaviour of one invocation: the event trace, the
uncaught exception that killed the script (if any), the terminal state of the
acquisition (if reached), and the run report (if computed). -/
structure RunTrace where
  events : List Event
  error : Option RunError
  outcome : Option Outcome
  result : Option RunResult
  deriving DecidableEq, Inhabited

/-- Python `int(s)` on the counter-file contents: surrounding whitespace is
stripped, then an optional sign followed by at least one decimal digit. -/
def digitsToNat (cs : List Char) : Option ℕ :=
  if cs.isEmpty then none
  else cs.foldl
    (fun acc c => acc.bind fun n =>
      if c.isDigit then some (10 * n + (c.toNat - 48)) else none)
    (some 0)

/-- Strip leading and trailing whitespace, as Python `int` does before
parsing. -/
def stripWs (cs : List Char) : List Char :=
  ((cs.dropWhile Char.isWhitespace).reverse.dropWhile Char.isWhitespace).reverse

/-- `int(file.read())` for the run-counter file. -/
def pyInt (s : String) : Option ℤ :=
  match stripWs s.toList with
  | '+' :: rest => (digitsToNat rest).map fun n => (n : ℤ)
  | '-' :: rest => (digitsToNat rest).map fun n => -(n : ℤ)
  | l => (digitsToNat l).map fun n => (n : ℤ)

/-- Lines 108-114: if the run-number override is exactly `-1`, open and read
the counter file and parse it as an integer; otherwise use the override
verbatim.  Returns the file events performed and the resolved run number (or
the uncaught exception). -/
def resolveRunNumber (runNumberParam : ℤ) (counterFile : Option String) :
    List Event × Except RunError ℤ :=
  if runNumberParam = -1 then
    ([Event.fOpen FPath.counter FMode.readM],
      match counterFile with
      | none => Except.error RunError.counterMissing
      | some s =>
        match pyInt s with
        | none => Except.error RunError.counterUnparsable
        | some n => Except.ok n)
  else ([], Except.ok runNumberParam)

/-- Line 83: `hScale = 1e-6` — the horizontal scale is a hard-coded constant;
the commented-out line 80 would have derived it from `--horizontalWindow`. -/
def hScale : ℚ := 1 / 1000000

/-- Line 68: `if trigCh != "AUX": trigCh = 'CHANnel'+trigCh`. -/
def trigSource (trigCh : String) : String :=
  if trigCh = "AUX" then trigCh else "CHANnel" ++ trigCh

/-- Lines 137-142: open the logbook in append mode and write the run header. -/
def headerLog (runNumber : ℤ) (numEvents : ℤ) : List Event :=
  [Event.fOpen FPath.logbook FMode.appendM,
   Event.logApp (LogLine.header runNumber),
   Event.logApp LogLine.dateLine,
   Event.logApp LogLine.dashes,
   Event.logApp (LogLine.eventsPerFile numEvents),
   Event.logApp LogLine.dashes]

/-- Lines 148-170: halt, horizontal setup commands, and the horizontal log
lines.  `timeoffset` is sent multiplied by `1e-9` (line 71). -/
def horizontalEvents (cli : Cli) : List Event :=
  [Event.cmdW Cmd.stopOpc,
   Event.cmdW (Cmd.timebaseRange hScale),
   Event.cmdW (Cmd.timebaseRefPercent 70),
   Event.cmdW Cmd.srateAuto,
   Event.cmdQ Cmd.srateQuery,
   Event.cmdW (Cmd.timebasePosition (cli.timeoffset / 1000000000)),
   Event.cmdW Cmd.acquireModeSegmented,
   Event.cmdW (Cmd.segmentedCount cli.numEvents),
   Event.cmdW Cmd.pointsAuto,
   Event.cmdW Cmd.interpolateOff,
   Event.logApp LogLine.horizontalHeader,
   Event.logApp (LogLine.hscaleLine hScale),
   Event.logApp (LogLine.hoffsetLine (cli.timeoffset / 1000000000))]

/-- Lines 185-187: `:ACQuire:BANDwidth 5.E10` and its log line. -/
def bandwidthEvents : List Event :=
  [Event.cmdW (Cmd.bandwidth (5 * 10 ^ 10)),
   Event.logApp LogLine.bandwidthLine]

/-- Lines 190-220: channel 1 vertical scale then offset, and the log lines. -/
def verticalEvents (cli : Cli) : List Event :=
  [Event.cmdW (Cmd.chScale 1 cli.vScale1),
   Event.cmdW (Cmd.chOffset 1 cli.vPos1),
   Event.logApp LogLine.verticalHeader,
   Event.logApp (LogLine.ch1ScaleLine cli.vScale1),
   Event.logApp (LogLine.ch1OffsetLine cli.vPos1)]

/-- Lines 227-239: the combined trigger mode/source/level write, the slope
write, and the trigger log lines. -/
def triggerEvents (cli : Cli) : List Event :=
  [Event.cmdW (Cmd.trigEdge (trigSource cli.trigCh) cli.trig),
   Event.cmdW (Cmd.trigSlope cli.trigSlope),
   Event.logApp LogLine.triggerHeader,
   Event.logApp (LogLine.trigChannelLine (trigSource cli.trigCh)),
   Event.logApp (LogLine.trigScaleLine cli.trig),
   Event.logApp (LogLine.trigEdgeLine cli.trigSlope)]

/-- True on instrument command events (writes and queries). -/
def isInstr : Event → Bool
  | Event.cmdW _ => true
  | Event.cmdQ _ => true
  | _ => false

/-- The instrument commands of the configuration section (lines 148-228), in
issue order. -/
def configEvents (cli : Cli) : List Event :=
  (horizontalEvents cli ++ bandwidthEvents ++ verticalEvents cli
    ++ triggerEvents cli).filter isInstr

/-- One truncating open of the run-status file followed by writing the token
(and, when `newline = true`, a trailing `"\n"`). -/
def statusEvents (token : String) (newline : Bool) : List Event :=
  [Event.fOpen FPath.runLog FMode.writeM, Event.statusWr token newline]

/-- Lines 261-263: clear the display, then clear status and arm a single
acquisition — both fire-and-forget writes. -/
def armEvents : List Event :=
  [Event.cmdW Cmd.cdisplay, Event.cmdW Cmd.clsSingle]

/-- Lines 266-279, the polling loop.  At iteration `i` the script queries
`:ADER?`; if the parsed response is `1` it breaks with `end_early = False`.
Otherwise it sleeps 100 ms and, when a positive timeout is configured and the
wall clock has passed it, writes `':STOP;*OPC?'` (a write — the response is
not read) and breaks with `end_early = True`; else it loops.  Returns the
events of the loop, the `end_early` flag, and the iteration index at which the
loop exited; `none` when the fuel ran out with the loop still going. -/
def pollAux (timeout : ℚ) (ader : ℕ → ℤ) (elapsed : ℕ → ℚ) :
    ℕ → ℕ → Option (List Event × Bool × ℕ)
  | _, 0 => none
  | i, fuel + 1 =>
    if ader i = 1 then
      some ([Event.cmdQ Cmd.aderQuery], false, i)
    else if 0 < timeout ∧ timeout < elapsed i then
      some ([Event.cmdQ Cmd.aderQuery, Event.cmdW Cmd.stopOpc], true, i)
    else
      (pollAux timeout ader elapsed (i + 1) fuel).map
        fun r => (Event.cmdQ Cmd.aderQuery :: r.1, r.2)

/-- Python float division: raises `ZeroDivisionError` on a zero divisor. -/
def pyDiv (a b : ℚ) : Except RunError ℚ :=
  if b = 0 then Except.error RunError.zeroDivision else Except.ok (a / b)

/-- Line 297: `output_path = 'C:\\LCE_BTL_Module\\'`. -/
def outputPath : String := "C:\\LCE_BTL_Module\\"

/-- The destination path of the channel-1 save command (line 304): the output
folder, the fixed stem, and the resolved run number. -/
def savePath (runNumber : ℤ) : String :=
  outputPath ++ "Wavenewscope_CH1_run" ++ toString runNumber

/-- Lines 296-309, the `if savewaves:` body: prepare all segments, a blocking
operation-complete query, the channel-1 save, and a second blocking
operation-complete query. -/
def exportEvents (runNumber : ℤ) : List Event :=
  [Event.cmdW Cmd.diskSegmentedAll,
   Event.cmdQ Cmd.opcQuery,
   Event.cmdW (Cmd.saveWaveform 1 (savePath runNumber)),
   Event.cmdQ Cmd.opcQuery]

/-- Everything the script does before the polling loop, once the run number
has resolved: the identification query, the counter-file events, the logbook
header, the configuration section, the `busy` status, and the arm commands. -/
def setupEvents (cli : Cli) (runNumber : ℤ) (resEvs : List Event) : List Event :=
  [Event.cmdQ Cmd.idn] ++ resEvs ++ headerLog runNumber cli.numEvents
    ++ horizontalEvents cli ++ bandwidthEvents ++ verticalEvents cli
    ++ triggerEvents cli ++ statusEvents "busy" false ++ armEvents

/-- Lines 281-333, everything after the polling loop: publish `writing`,
compute `duration` and `trigRate = float(numEvents)/duration` (the division is
unconditional — a zero duration kills the script here), report the rate only
when the run did not end early, run the export block when saving was
requested, and publish `ready`. -/
def afterPoll (cli : Cli) (env : Env) (runNumber : ℤ)
    (setup : List Event) (pollEvs : List Event) (endEarly : Bool) : RunTrace :=
  match pyDiv (cli.numEvents : ℚ) env.duration with
  | Except.error e =>
    ⟨setup ++ pollEvs ++ statusEvents "writing" true, some e,
     some (if endEarly then Outcome.timedOut else Outcome.completed), none⟩
  | Except.ok trigRate =>
    ⟨(setup ++ pollEvs ++ statusEvents "writing" true)
       ++ (if cli.save ≠ 0 then exportEvents runNumber else [])
       ++ statusEvents "ready" true,
     none, some (if endEarly then Outcome.timedOut else Outcome.completed),
     some ⟨env.duration, if endEarly then none else some trigRate,
           if endEarly then Outcome.timedOut else Outcome.completed⟩⟩

/-- The whole script as a trace-producing function.  The `*idn?` query of
line 34 precedes everything; the run number resolves before any logbook or
configuration activity; an unresolvable run number kills the script there.
`none` means the polling loop outlived the fuel. -/
def runProgram (cli : Cli) (env : Env) (fuel : ℕ) : Option RunTrace :=
  match resolveRunNumber cli.runNumberParam env.counterFile with
  | (resEvs, Except.error e) =>
    some ⟨[Event.cmdQ Cmd.idn] ++ resEvs, some e, none, none⟩
  | (resEvs, Except.ok runNumber) =>
    match pollAux cli.timeout env.ader env.elapsed 0 fuel with
    | none => none
    | some (pollEvs, endEarly, _) =>
      some (afterPoll cli env runNumber (setupEvents cli runNumber resEvs)
        pollEvs endEarly)

/-- Phase number of §4.2 for each configuration event; `0` for events outside
the configuration section. -/
def phaseOf : Event → ℕ
  | Event.cmdW Cmd.stopOpc => 1
  | Event.cmdW (Cmd.timebaseRange _) => 2
  | Event.cmdW (Cmd.timebaseRefPercent _) => 2
  | Event.cmdW Cmd.srateAuto => 2
  | Event.cmdQ Cmd.srateQuery => 2
  | Event.cmdW (Cmd.timebasePosition _) => 3
  | Event.cmdW Cmd.acquireModeSegmented => 4
  | Event.cmdW (Cmd.segmentedCount _) => 4
  | Event.cmdW Cmd.pointsAuto => 4
  | Event.cmdW Cmd.interpolateOff => 4
  | Event.cmdW (Cmd.bandwidth _) => 5
  | Event.cmdW (Cmd.chScale _ _) => 6
  | Event.cmdW (Cmd.chOffset _ _) => 6
  | Event.cmdW (Cmd.trigEdge _ _) => 7
  | Event.cmdW (Cmd.trigSlope _) => 7
  | _ => 0

/-- True on a write that opens the counter file for writing or appending. -/
def writesCounter : Event → Bool
  | Event.fOpen FPath.counter FMode.writeM => true
  | Event.fOpen FPath.counter FMode.appendM => true
  | _ => false

/-- True on the channel save command. -/
def isSave : Event → Bool
  | Event.cmdW (Cmd.saveWaveform _ _) => true
  | _ => false

/-- True on the prepare-all-segments directive. -/
def isPrepare : Event → Bool
  | Event.cmdW Cmd.diskSegmentedAll => true
  | _ => false

/-- True on a fire-and-forget `':STOP;*OPC?'` write. -/
def isStopW : Event → Bool
  | Event.cmdW Cmd.stopOpc => true
  | _ => false

/-- True on query events (command sent and response read). -/
def isQuery : Event → Bool
  | Event.cmdQ _ => true
  | _ => false

/-- True on an open of the run-status file (any mode). -/
def isRunLogOpen : Event → Bool
  | Event.fOpen FPath.runLog _ => true
  | _ => false

/-- The status-file records of a trace, in order: token and whether a trailing
newline was written. -/
def statusSeq (evs : List Event) : List (String × Bool) :=
  evs.filterMap fun e =>
    match e with
    | Event.statusWr tok nl => some (tok, nl)
    | _ => none

/-- Concrete fixture: a run with the default-style parameters, override -1. -/
def cliA : Cli :=
  { numEvents := 1000, runNumberParam := -1, sampleRate := 4,
    horizontalWindow := 200, trigCh := "1", trig := -23 / 10000,
    trigSlope := "NEGative", vScale1 := 1 / 200, vPos1 := 2 / 125,
    timeoffset := -53, save := 1, timeout := -1 }

/-- Concrete fixture: counter file holds `"42"`, completion on the first
poll, duration 2 s. -/
def envA : Env :=
  { counterFile := some "42", ader := fun _ => 1, elapsed := fun _ => 0,
    duration := 2 }

/-- The trace of the fixture run `cliA`/`envA`. -/
def traceA : RunTrace := (runProgram cliA envA 1).getD default

/-- Concrete fixture: explicit run number 5, a 0.1 s timeout. -/
def cliC : Cli :=
  { cliA with runNumberParam := 5, timeout := 1 / 10 }

/-- Concrete fixture: the instrument never completes and the wall clock has
already passed the deadline at the first check. -/
def envC : Env :=
  { counterFile := none, ader := fun _ => 0, elapsed := fun _ => 1,
    duration := 2 }

/-- The trace of the timed-out fixture run `cliC`/`envC`. -/
def traceC : RunTrace := (runProgram cliC envC 1).getD default

/-- Concrete fixture: a zero-length run (`end == start`). -/
def envZ : Env :=
  { counterFile := some "42", ader := fun _ => 1, elapsed := fun _ => 0,
    duration := 0 }

/-- The trace of the zero-duration fixture run `cliA`/`envZ`. -/
def traceZ : RunTrace := (runProgram cliA envZ 1).getD default

/-- The run report of the fixture run `cliA`/`envA`. -/
def resultA : RunResult := traceA.result.getD ⟨0, none, Outcome.completed⟩

/-- Concrete fixture: the counter file is missing. -/
def envM : Env :=
  { counterFile := none, ader := fun _ => 1, elapsed := fun _ => 0,
    duration := 2 }

/-- Counting with a predicate that rejects the replicated element gives 0. -/
theorem countP_replicate_false {α : Type} (p : α → Bool) (a : α)
    (hp : p a = false) (n : ℕ) :
    List.countP p (List.replicate n a) = 0 := by
  induction n with
  | zero => simp
  | succ k ih => rw [List.replicate_succ, List.countP_cons]; simp [hp, ih]

/-- Filtering replicated elements the function sends to `none` gives `[]`. -/
theorem filterMap_replicate_none {α β : Type} (f : α → Option β) (a : α)
    (hf : f a = none) (n : ℕ) :
    List.filterMap f (List.replicate n a) = [] := by
  induction n with
  | zero => simp
  | succ k ih => rw [List.replicate_succ, List.filterMap_cons]; simp [hf, ih]

/-- Full characterisation of the polling loop: when it exits at iteration `j`
having started at `i`, it has issued one `:ADER?` query per iteration, plus
the `':STOP;*OPC?'` write exactly when it ended early; it ends normally only
on a response equal to 1, and early only past a positive deadline. -/
theorem pollAux_spec (timeout : ℚ) (ader : ℕ → ℤ) (elapsed : ℕ → ℚ) :
    ∀ (fuel i : ℕ) (evs : List Event) (early : Bool) (j : ℕ),
      pollAux timeout ader elapsed i fuel = some (evs, early, j) →
      i ≤ j ∧
      evs = List.replicate (j - i + 1) (Event.cmdQ Cmd.aderQuery)
        ++ (if early then [Event.cmdW Cmd.stopOpc] else []) ∧
      (early = false → ader j = 1) ∧
      (early = true → 0 < timeout ∧ timeout < elapsed j) := by
  intro fuel
  induction fuel with
  | zero =>
    intro i evs early j h
    simp [pollAux] at h
  | succ n ih =>
    intro i evs early j h
    rw [pollAux] at h
    split_ifs at h with h1 h2
    · simp only [Option.some.injEq, Prod.mk.injEq] at h
      obtain ⟨hevs, hearly, hj⟩ := h
      subst hevs; subst hearly; subst hj
      exact ⟨le_refl i, by simp, fun _ => h1, fun hc => absurd hc (by decide)⟩
    · simp only [Option.some.injEq, Prod.mk.injEq] at h
      obtain ⟨hevs, hearly, hj⟩ := h
      subst hevs; subst hearly; subst hj
      exact ⟨le_refl i, by simp [List.replicate_succ],
        fun hc => absurd hc (by decide), fun _ => h2⟩
    · rw [Option.map_eq_some'] at h
      obtain ⟨⟨evs', early', j'⟩, hrec, hf⟩ := h
      simp only [Prod.mk.injEq] at hf
      obtain ⟨hevs, hearly, hj⟩ := hf
      subst hevs; subst hearly; subst hj
      obtain ⟨hij, hevs', hdone, htime⟩ := ih (i + 1) evs' early' j' hrec
      have hk : j' - (i + 1) + 1 + 1 = j' - i + 1 := by omega
      refine ⟨by omega, ?_, hdone, htime⟩
      rw [hevs', ← List.cons_append, ← List.replicate_succ, hk]

/-- Every event of the polling loop is an `:ADER?` query or the
`':STOP;*OPC?'` write. -/
theorem pollAux_mem (timeout : ℚ) (ader : ℕ → ℤ) (elapsed : ℕ → ℚ)
    (fuel i : ℕ) (evs : List Event) (early : Bool) (j : ℕ)
    (h : pollAux timeout ader elapsed i fuel = some (evs, early, j)) :
    ∀ ev ∈ evs, ev = Event.cmdQ Cmd.aderQuery ∨ ev = Event.cmdW Cmd.stopOpc := by
  obtain ⟨-, hevs, -, -⟩ := pollAux_spec timeout ader elapsed fuel i evs early j h
  intro ev hm
  rw [hevs] at hm
  rcases List.mem_append.mp hm with hm | hm
  · exact Or.inl (List.eq_of_mem_replicate hm)
  · cases early with
    | false => simp at hm
    | true => simp at hm; exact Or.inr hm

/-- Counting the polling loop's events with a predicate that rejects the
`:ADER?` query leaves only the possible early-stop write. -/
theorem pollAux_countP (timeout : ℚ) (ader : ℕ → ℤ) (elapsed : ℕ → ℚ)
    (fuel i : ℕ) (evs : List Event) (early : Bool) (j : ℕ)
    (p : Event → Bool) (hp : p (Event.cmdQ Cmd.aderQuery) = false)
    (h : pollAux timeout ader elapsed i fuel = some (evs, early, j)) :
    List.countP p evs
      = List.countP p (if early then [Event.cmdW Cmd.stopOpc] else []) := by
  obtain ⟨-, hevs, -, -⟩ := pollAux_spec timeout ader elapsed fuel i evs early j h
  rw [hevs, List.countP_append, countP_replicate_false p _ hp, Nat.zero_add]

/-- The polling loop records nothing in the status file. -/
theorem pollAux_statusSeq (timeout : ℚ) (ader : ℕ → ℤ) (elapsed : ℕ → ℚ)
    (fuel i : ℕ) (evs : List Event) (early : Bool) (j : ℕ)
    (h : pollAux timeout ader elapsed i fuel = some (evs, early, j)) :
    statusSeq evs = [] := by
  obtain ⟨-, hevs, -, -⟩ := pollAux_spec timeout ader elapsed fuel i evs early j h
  rw [hevs]
  unfold statusSeq
  rw [List.filterMap_append, filterMap_replicate_none _ _ rfl]
  cases early <;> simp

/-- The file events of run-number resolution are at most one read-mode open of
the counter file. -/
theorem resolveRunNumber_events (p : ℤ) (cf : Option String) :
    ∀ ev ∈ (resolveRunNumber p cf).1, ev = Event.fOpen FPath.counter FMode.readM := by
  unfold resolveRunNumber
  split_ifs <;> simp

/-- Case analysis on one whole invocation of the script: either the run number
failed to resolve and the script died right there, or the poll loop ran and
the script finished — dying at the trigger-rate division when the measured
duration was zero. -/
theorem runProgram_cases (cli : Cli) (env : Env) (fuel : ℕ) (t : RunTrace)
    (h : runProgram cli env fuel = some t) :
    (∃ resEvs e,
      resolveRunNumber cli.runNumberParam env.counterFile
        = (resEvs, Except.error e) ∧
      t = ⟨[Event.cmdQ Cmd.idn] ++ resEvs, some e, none, none⟩) ∨
    (∃ resEvs rn pollEvs early j,
      resolveRunNumber cli.runNumberParam env.counterFile
        = (resEvs, Except.ok rn) ∧
      pollAux cli.timeout env.ader env.elapsed 0 fuel
        = some (pollEvs, early, j) ∧
      ((env.duration = 0 ∧
        t = ⟨setupEvents cli rn resEvs ++ pollEvs ++ statusEvents "writing" true,
             some RunError.zeroDivision,
             some (if early then Outcome.timedOut else Outcome.completed),
             none⟩) ∨
       (env.duration ≠ 0 ∧
        t = ⟨(setupEvents cli rn resEvs ++ pollEvs ++ statusEvents "writing" true)
               ++ (if cli.save ≠ 0 then exportEvents rn else [])
               ++ statusEvents "ready" true,
             none,
             some (if early then Outcome.timedOut else Outcome.completed),
             some ⟨env.duration,
                   if early then none
                   else some ((cli.numEvents : ℚ) / env.duration),
                   if early then Outcome.timedOut else Outcome.completed⟩⟩))) := by
  unfold runProgram at h
  rcases hres : resolveRunNumber cli.runNumberParam env.counterFile with ⟨resEvs, res⟩
  rw [hres] at h
  cases res with
  | error e =>
    left
    refine ⟨resEvs, e, rfl, ?_⟩
    simpa using h.symm
  | ok rn =>
    right
    rcases hpoll : pollAux cli.timeout env.ader env.elapsed 0 fuel with
      _ | ⟨pollEvs, early, j⟩
    · rw [hpoll] at h; cases h
    · rw [hpoll] at h
      simp only [Option.some.injEq] at h
      refine ⟨resEvs, rn, pollEvs, early, j, rfl, rfl, ?_⟩
      unfold afterPoll pyDiv at h
      by_cases hd : env.duration = 0
      · left
        rw [if_pos hd] at h
        exact ⟨hd, h.symm⟩
      · right
        rw [if_neg hd] at h
        exact ⟨hd, h.symm⟩

/-- `statusSeq` distributes over append. -/
theorem statusSeq_append (a b : List Event) :
    statusSeq (a ++ b) = statusSeq a ++ statusSeq b := by
  unfold statusSeq
  exact List.filterMap_append a b _

/-- The setup section records exactly the `busy` status, without a trailing
newline. -/
theorem statusSeq_setup (cli : Cli) (rn : ℤ) (resEvs : List Event)
    (hres : ∀ ev ∈ resEvs, ev = Event.fOpen FPath.counter FMode.readM) :
    statusSeq (setupEvents cli rn resEvs) = [("busy", false)] := by
  have h1 : statusSeq resEvs = [] := by
    refine List.filterMap_eq_nil_iff.mpr fun ev hm => ?_
    rw [hres ev hm]
  unfold setupEvents
  simp only [statusSeq_append, h1]
  rfl

/-- The setup section opens the run-status file exactly once, truncating. -/
theorem filter_runLogOpen_setup (cli : Cli) (rn : ℤ) (resEvs : List Event)
    (hres : ∀ ev ∈ resEvs, ev = Event.fOpen FPath.counter FMode.readM) :
    (setupEvents cli rn resEvs).filter isRunLogOpen
      = [Event.fOpen FPath.runLog FMode.writeM] := by
  have h1 : resEvs.filter isRunLogOpen = [] := by
    refine List.filter_eq_nil_iff.mpr fun ev hm => ?_
    rw [hres ev hm]
    decide
  unfold setupEvents
  simp only [List.filter_append, h1]
  rfl

/-- The polling loop never opens a file. -/
theorem filter_runLogOpen_poll (timeout : ℚ) (ader : ℕ → ℤ) (elapsed : ℕ → ℚ)
    (fuel i : ℕ) (evs : List Event) (early : Bool) (j : ℕ)
    (h : pollAux timeout ader elapsed i fuel = some (evs, early, j)) :
    evs.filter isRunLogOpen = [] := by
  refine List.filter_eq_nil_iff.mpr fun ev hm => ?_
  rcases pollAux_mem timeout ader elapsed fuel i evs early j h ev hm with rfl | rfl
    <;> decide

/-- Counting the setup section with a predicate that rejects the counter-file
read leaves the count over its concrete events. -/
theorem countP_setup (cli : Cli) (rn : ℤ) (resEvs : List Event)
    (p : Event → Bool)
    (hres : ∀ ev ∈ resEvs, ev = Event.fOpen FPath.counter FMode.readM)
    (hp : p (Event.fOpen FPath.counter FMode.readM) = false) :
    List.countP p (setupEvents cli rn resEvs)
      = List.countP p ([Event.cmdQ Cmd.idn] ++ headerLog rn cli.numEvents
          ++ horizontalEvents cli ++ bandwidthEvents ++ verticalEvents cli
          ++ triggerEvents cli ++ statusEvents "busy" false ++ armEvents) := by
  have h1 : List.countP p resEvs = 0 := by
    refine List.countP_eq_zero.mpr fun ev hm => ?_
    rw [hres ev hm, hp]
    decide
  unfold setupEvents
  simp only [List.countP_append, h1]
  omega

/-- A status block records exactly its token and newline flag. -/
theorem statusSeq_statusEvents (tok : String) (nl : Bool) :
    statusSeq (statusEvents tok nl) = [(tok, nl)] := rfl

/-- The export block records nothing in the status file. -/
theorem statusSeq_exportEvents (rn : ℤ) : statusSeq (exportEvents rn) = [] := rfl

/-- A status block opens the run-status file exactly once, truncating. -/
theorem filter_runLogOpen_statusEvents (tok : String) (nl : Bool) :
    (statusEvents tok nl).filter isRunLogOpen
      = [Event.fOpen FPath.runLog FMode.writeM] := rfl

/-- The export block opens no file. -/
theorem filter_runLogOpen_exportEvents (rn : ℤ) :
    (exportEvents rn).filter isRunLogOpen = [] := rfl

/-- Claim C2: the run report carries a trigger rate exactly when the terminal
state is `completed`, and then it equals eventCount / duration; a timed-out
report carries none. -/
theorem c2_triggerRate_presence (cli : Cli) (env : Env) (fuel : ℕ)
    (t : RunTrace) (r : RunResult)
    (h : runProgram cli env fuel = some t) (hr : t.result = some r) :
    (r.outcome = Outcome.completed →
      r.triggerRate = some ((cli.numEvents : ℚ) / r.duration)) ∧
    (r.outcome = Outcome.timedOut → r.triggerRate = none) := by
  rcases runProgram_cases cli env fuel t h with
    ⟨resEvs, e, hres, rfl⟩ | ⟨resEvs, rn, pollEvs, early, j, hres, hpoll, hcase⟩
  · cases hr
  · rcases hcase with ⟨hd, rfl⟩ | ⟨hd, rfl⟩
    · cases hr
    · simp only [Option.some.injEq] at hr
      subst hr
      cases early <;> simp

/-- Witness for C2 on the completed fixture run. -/
theorem c2_witness :
    (resultA.outcome = Outcome.completed →
      resultA.triggerRate = some ((cliA.numEvents : ℚ) / resultA.duration)) ∧
    (resultA.outcome = Outcome.timedOut → resultA.triggerRate = none) :=
  c2_triggerRate_presence cliA envA 1 traceA resultA
    (by with_unfolding_all rfl) (by with_unfolding_all rfl)

/-- Claim C3: during a run that encounters no error the status records are
exactly busy, writing, ready in that order — no repeats, omissions or
reversals — each produced by a truncating open of the status file, with a
trailing newline on writing and ready but not on busy. -/
theorem c3_status_lifecycle (cli : Cli) (env : Env) (fuel : ℕ) (t : RunTrace)
    (h : runProgram cli env fuel = some t) (he : t.error = none) :
    statusSeq t.events = [("busy", false), ("writing", true), ("ready", true)] ∧
    t.events.filter isRunLogOpen
      = List.replicate 3 (Event.fOpen FPath.runLog FMode.writeM) := by
  rcases runProgram_cases cli env fuel t h with
    ⟨resEvs, e, hres, rfl⟩ | ⟨resEvs, rn, pollEvs, early, j, hres, hpoll, hcase⟩
  · cases he
  · have hresEv : ∀ ev ∈ resEvs, ev = Event.fOpen FPath.counter FMode.readM := by
      have h0 := resolveRunNumber_events cli.runNumberParam env.counterFile
      rw [hres] at h0
      exact h0
    rcases hcase with ⟨hd, rfl⟩ | ⟨hd, rfl⟩
    · cases he
    · have hps := pollAux_statusSeq cli.timeout env.ader env.elapsed
        fuel 0 pollEvs early j hpoll
      have hpf := filter_runLogOpen_poll cli.timeout env.ader env.elapsed
        fuel 0 pollEvs early j hpoll
      have hexp : statusSeq (if cli.save ≠ 0 then exportEvents rn else [])
          = [] := by split <;> rfl
      have hexpf : (if cli.save ≠ 0 then exportEvents rn else []).filter
          isRunLogOpen = [] := by split <;> rfl
      constructor
      · simp only [statusSeq_append, statusSeq_setup cli rn resEvs hresEv,
          hps, hexp, statusSeq_statusEvents, List.append_nil, List.nil_append]
        rfl
      · simp only [List.filter_append,
          filter_runLogOpen_setup cli rn resEvs hresEv, hpf, hexpf,
          filter_runLogOpen_statusEvents, List.append_nil, List.nil_append]
        rfl

/-- Witness for C3 on the completed fixture run. -/
theorem c3_witness :
    statusSeq traceA.events
      = [("busy", false), ("writing", true), ("ready", true)] ∧
    traceA.events.filter isRunLogOpen
      = List.replicate 3 (Event.fOpen FPath.runLog FMode.writeM) :=
  c3_status_lifecycle cliA envA 1 traceA (by with_unfolding_all rfl)
    (by with_unfolding_all decide)

/-- Claim C1: for every parameter set, the configuration section issues its
instrument commands in the fixed seven-phase order of §4.2 — (1) halt, (2)
horizontal range, reference percent and automatic sample-rate selection, (3)
horizontal position, (4) segmented mode, segment count = eventCount, automatic
points, interpolation off, (5) bandwidth, (6) channel vertical scale then
offset, (7) trigger edge mode/source/level then slope — regardless of the
supplied values. -/
theorem c1_config_phase_order (cli : Cli) :
    (configEvents cli).map phaseOf
      = [1, 2, 2, 2, 2, 3, 4, 4, 4, 4, 5, 6, 6, 7, 7] ∧
    Event.cmdW (Cmd.segmentedCount cli.numEvents) ∈ configEvents cli := by
  constructor
  · rfl
  · simp [configEvents, horizontalEvents, bandwidthEvents, verticalEvents,
      triggerEvents, isInstr]

/-- Claim C8 (evidence for the missing guard): the trigger-rate division is
not guarded against a zero duration — on a run whose measured duration is
zero the script dies with `ZeroDivisionError` after publishing `writing`,
produces no run report, and never publishes `ready`. -/
theorem c8_zero_duration_unguarded :
    pyDiv (1000 : ℚ) 0 = Except.error RunError.zeroDivision ∧
    runProgram cliA envZ 1 = some traceZ ∧
    traceZ.error = some RunError.zeroDivision ∧
    traceZ.result = none ∧
    statusSeq traceZ.events = [("busy", false), ("writing", true)] := by
  refine ⟨by with_unfolding_all decide, by with_unfolding_all rfl,
    by with_unfolding_all decide, by with_unfolding_all decide,
    by with_unfolding_all decide⟩

/-- Claim C9: the commanded horizontal time range is the constant `1e-6` s,
and the horizontal-window parameter, though part of the parameter set, has no
effect on the script's behaviour: two invocations differing only in it behave
identically. -/
theorem c9_horizontalWindow_ignored (cli : Cli) (w : ℚ) (env : Env)
    (fuel : ℕ) :
    runProgram { cli with horizontalWindow := w } env fuel
      = runProgram cli env fuel ∧
    Event.cmdW (Cmd.timebaseRange hScale) ∈ configEvents cli ∧
    hScale = 1 / 1000000 ∧
    (∀ v : ℚ, Event.cmdW (Cmd.timebaseRange v) ∈ configEvents cli →
      v = 1 / 1000000) := by
  refine ⟨rfl, ?_, rfl, ?_⟩
  · simp [configEvents, horizontalEvents, bandwidthEvents, verticalEvents,
      triggerEvents, isInstr]
  · intro v hv
    simp [configEvents, horizontalEvents, bandwidthEvents, verticalEvents,
      triggerEvents, isInstr, hScale] at hv
    rw [hv]
    norm_num

/-- Witness for C9 at a concrete parameter set. -/
theorem c9_witness : hScale = 1 / 1000000 :=
  (c9_horizontalWindow_ignored cliA 5 envA 1).2.2.2 hScale
    (by simp [configEvents, horizontalEvents, bandwidthEvents, verticalEvents,
      triggerEvents, isInstr])

/-- Claim C10: every run-number override other than the exact sentinel `-1` —
negative values included — is used verbatim, and the counter file is not
read. -/
theorem c10_nonSentinel_override_verbatim (p : ℤ) (cf : Option String)
    (hp : p ≠ -1) :
    resolveRunNumber p cf = ([], Except.ok p) := by
  unfold resolveRunNumber
  rw [if_neg hp]

/-- Witness for C10 at override `-2`. -/
theorem c10_witness :
    (-2 : ℤ) ≠ -1 ∧ resolveRunNumber (-2) (some "42") = ([], Except.ok (-2)) :=
  ⟨by decide, c10_nonSentinel_override_verbatim (-2) (some "42") (by decide)⟩

/-- Claim C4: with a non-positive configured timeout the script never reaches
`TimedOut`: whatever the stream of completion-register responses, the polling
loop exits only on observing a response equal to 1, and the early-termination
stop command is never issued. -/
theorem c4_nonpositive_timeout_never_timedOut (cli : Cli) (env : Env)
    (fuel : ℕ) (t : RunTrace) (evs : List Event) (early : Bool) (j : ℕ)
    (hto : cli.timeout ≤ 0) :
    (runProgram cli env fuel = some t → t.outcome ≠ some Outcome.timedOut) ∧
    (pollAux cli.timeout env.ader env.elapsed 0 fuel = some (evs, early, j) →
      early = false ∧ env.ader j = 1 ∧ Event.cmdW Cmd.stopOpc ∉ evs) := by
  have key : ∀ (evs' : List Event) (early' : Bool) (j' : ℕ),
      pollAux cli.timeout env.ader env.elapsed 0 fuel
        = some (evs', early', j') →
      early' = false ∧ env.ader j' = 1 ∧ Event.cmdW Cmd.stopOpc ∉ evs' := by
    intro evs' early' j' hp
    obtain ⟨hij, hevs, hdone, htime⟩ :=
      pollAux_spec cli.timeout env.ader env.elapsed fuel 0 evs' early' j' hp
    cases early' with
    | true =>
      obtain ⟨hpos, -⟩ := htime rfl
      exact absurd hpos (not_lt.mpr hto)
    | false =>
      refine ⟨rfl, hdone rfl, ?_⟩
      rw [hevs]
      simp [List.mem_replicate]
  constructor
  · intro h hc
    rcases runProgram_cases cli env fuel t h with
      ⟨resEvs, e, hres, rfl⟩ |
      ⟨resEvs, rn, pollEvs, early', j', hres, hpoll, hcase⟩
    · simp at hc
    · obtain ⟨hfalse, -, -⟩ := key pollEvs early' j' hpoll
      subst hfalse
      rcases hcase with ⟨-, rfl⟩ | ⟨-, rfl⟩ <;> simp at hc
  · exact key evs early j

/-- Witness for C4 on the unbounded fixture run. -/
theorem c4_witness :
    traceA.outcome ≠ some Outcome.timedOut ∧
    (false = false ∧ envA.ader 0 = 1 ∧
      Event.cmdW Cmd.stopOpc ∉ ([Event.cmdQ Cmd.aderQuery] : List Event)) := by
  have h := c4_nonpositive_timeout_never_timedOut cliA envA 1 traceA
    [Event.cmdQ Cmd.aderQuery] false 0 (by with_unfolding_all decide)
  exact ⟨h.1 (by with_unfolding_all rfl), h.2 (by with_unfolding_all rfl)⟩

/-- Counterexample to Claim C5 as stated: on a concrete timed-out run both the
initial halt and the deadline stop are issued, yet no `':STOP;*OPC?'` query
event exists anywhere in the trace — the appended operation-complete query's
response is never read (`dpo.write`, not `dpo.query`, at lines 148 and 278). -/
theorem c5_counterexample :
    runProgram cliC envC 1 = some traceC ∧
    traceC.outcome = some Outcome.timedOut ∧
    Event.cmdW Cmd.stopOpc ∈ traceC.events ∧
    Event.cmdQ Cmd.stopOpc ∉ traceC.events :=
  ⟨by with_unfolding_all rfl, by with_unfolding_all decide,
    by with_unfolding_all decide, by with_unfolding_all decide⟩

/-- Claim C5 (amended): the initial halt and the deadline-expiry stop each
carry an appended operation-complete query in the command text, but both are
issued as fire-and-forget writes whose response is never read — no
`':STOP;*OPC?'` query event ever occurs; the halt write opens the
configuration section, the only configuration-phase query is the sample-rate
observability query, and the stop write is issued once more exactly on a
timed-out run. -/
theorem c5_halt_and_stop_unconfirmed (cli : Cli) (env : Env) (fuel : ℕ)
    (t : RunTrace) (h : runProgram cli env fuel = some t) :
    Event.cmdQ Cmd.stopOpc ∉ t.events ∧
    (configEvents cli).head? = some (Event.cmdW Cmd.stopOpc) ∧
    (configEvents cli).filter isQuery = [Event.cmdQ Cmd.srateQuery] ∧
    (t.outcome = some Outcome.timedOut →
      List.countP isStopW t.events = 2) ∧
    (t.outcome = some Outcome.completed →
      List.countP isStopW t.events = 1) := by
  rcases runProgram_cases cli env fuel t h with
    ⟨resEvs, e, hres, rfl⟩ |
    ⟨resEvs, rn, pollEvs, early, j, hres, hpoll, hcase⟩
  · have hresEv : ∀ ev ∈ resEvs, ev = Event.fOpen FPath.counter FMode.readM := by
      have h0 := resolveRunNumber_events cli.runNumberParam env.counterFile
      rw [hres] at h0
      exact h0
    refine ⟨?_, rfl, rfl, by intro hc; simp at hc, by intro hc; simp at hc⟩
    intro hm
    rcases List.mem_append.mp hm with hm | hm
    · simp at hm
    · exact absurd (hresEv _ hm) (by simp)
  · have hresEv : ∀ ev ∈ resEvs, ev = Event.fOpen FPath.counter FMode.readM := by
      have h0 := resolveRunNumber_events cli.runNumberParam env.counterFile
      rw [hres] at h0
      exact h0
    have hpmem := pollAux_mem cli.timeout env.ader env.elapsed
      fuel 0 pollEvs early j hpoll
    have hpcount := pollAux_countP cli.timeout env.ader env.elapsed
      fuel 0 pollEvs early j isStopW rfl hpoll
    have hsetupcount : List.countP isStopW (setupEvents cli rn resEvs) = 1 := by
      rw [countP_setup cli rn resEvs isStopW hresEv rfl]
      rfl
    have hsetupmem : Event.cmdQ Cmd.stopOpc ∉ setupEvents cli rn resEvs := by
      intro hm
      unfold setupEvents at hm
      simp only [List.mem_append] at hm
      rcases hm with ((((((((hm | hm) | hm) | hm) | hm) | hm) | hm) | hm) | hm)
        <;> first
          | (exact absurd (hresEv _ hm) (by simp))
          | (simp [headerLog, horizontalEvents, bandwidthEvents,
              verticalEvents, triggerEvents, statusEvents, armEvents] at hm)
    have hpollmem : Event.cmdQ Cmd.stopOpc ∉ pollEvs := by
      intro hm
      rcases hpmem _ hm with hh | hh <;> simp at hh
    rcases hcase with ⟨hd, rfl⟩ | ⟨hd, rfl⟩
    · refine ⟨?_, rfl, rfl, ?_, ?_⟩
      · intro hm
        simp only [List.mem_append] at hm
        rcases hm with (hm | hm) | hm
        · exact hsetupmem hm
        · exact hpollmem hm
        · simp [statusEvents] at hm
      · intro hoc
        simp only [List.countP_append, hsetupcount, hpcount]
        simp only [RunTrace.outcome] at hoc
        cases early with
        | false => simp at hoc
        | true => rfl
      · intro hoc
        simp only [List.countP_append, hsetupcount, hpcount]
        simp only [RunTrace.outcome] at hoc
        cases early with
        | false => rfl
        | true => simp at hoc
    · have hexpmem : Event.cmdQ Cmd.stopOpc ∉
          (if cli.save ≠ 0 then exportEvents rn else []) := by
        split <;> simp [exportEvents]
      have hexpcount : List.countP isStopW
          (if cli.save ≠ 0 then exportEvents rn else []) = 0 := by
        split <;> rfl
      refine ⟨?_, rfl, rfl, ?_, ?_⟩
      · intro hm
        simp only [List.mem_append] at hm
        rcases hm with (((hm | hm) | hm) | hm) | hm
        · exact hsetupmem hm
        · exact hpollmem hm
        · simp [statusEvents] at hm
        · exact hexpmem hm
        · simp [statusEvents] at hm
      · intro hoc
        simp only [List.countP_append, hsetupcount, hpcount, hexpcount]
        simp only [RunTrace.outcome] at hoc
        cases early with
        | false => simp at hoc
        | true => rfl
      · intro hoc
        simp only [List.countP_append, hsetupcount, hpcount, hexpcount]
        simp only [RunTrace.outcome] at hoc
        cases early with
        | false => rfl
        | true => simp at hoc

/-- Witness for the amended C5 on the completed fixture run. -/
theorem c5_witness :
    Event.cmdQ Cmd.stopOpc ∉ traceA.events ∧
    (configEvents cliA).head? = some (Event.cmdW Cmd.stopOpc) ∧
    (configEvents cliA).filter isQuery = [Event.cmdQ Cmd.srateQuery] ∧
    (traceA.outcome = some Outcome.timedOut →
      List.countP isStopW traceA.events = 2) ∧
    (traceA.outcome = some Outcome.completed →
      List.countP isStopW traceA.events = 1) :=
  c5_halt_and_stop_unconfirmed cliA envA 1 traceA (by with_unfolding_all rfl)

/-- Claim C6: run-number resolution — the sentinel `-1` with a counter file
holding `"42"` yields 42 via a read of the counter file; an explicit override
yields itself without touching the counter file; the sentinel with a missing,
unreadable or non-integer counter file kills the script before any instrument
configuration command, leaving only the identification query and the counter
read in the trace; and no run ever opens the counter file for writing. -/
theorem c6_runNumber_resolution :
    resolveRunNumber (-1) (some "42")
      = ([Event.fOpen FPath.counter FMode.readM], Except.ok 42) ∧
    (∀ cf : Option String, resolveRunNumber 7 cf = ([], Except.ok 7)) ∧
    (∀ (cli : Cli) (env : Env) (fuel : ℕ), cli.runNumberParam = -1 →
      (∀ s, env.counterFile = some s → pyInt s = none) →
      ∃ err, runProgram cli env fuel
        = some ⟨[Event.cmdQ Cmd.idn, Event.fOpen FPath.counter FMode.readM],
                some err, none, none⟩) ∧
    (∀ (cli : Cli) (env : Env) (fuel : ℕ) (t : RunTrace),
      runProgram cli env fuel = some t →
      t.events.any writesCounter = false) := by
  refine ⟨by with_unfolding_all decide, ?_, ?_, ?_⟩
  · intro cf
    unfold resolveRunNumber
    rw [if_neg (by decide)]
  · intro cli env fuel hparam hcf
    rcases hc : env.counterFile with _ | s
    · refine ⟨RunError.counterMissing, ?_⟩
      unfold runProgram resolveRunNumber
      rw [hparam, hc]
      rfl
    · have hs := hcf s hc
      refine ⟨RunError.counterUnparsable, ?_⟩
      unfold runProgram resolveRunNumber
      rw [hparam, hc]
      simp [hs]
  · intro cli env fuel t h
    have hzero : List.countP writesCounter t.events = 0 := by
      rcases runProgram_cases cli env fuel t h with
        ⟨resEvs, e, hres, rfl⟩ |
        ⟨resEvs, rn, pollEvs, early, j, hres, hpoll, hcase⟩
      · have hresEv : ∀ ev ∈ resEvs,
            ev = Event.fOpen FPath.counter FMode.readM := by
          have h0 := resolveRunNumber_events cli.runNumberParam env.counterFile
          rw [hres] at h0
          exact h0
        have h1 : List.countP writesCounter resEvs = 0 :=
          List.countP_eq_zero.mpr fun ev hm => by rw [hresEv ev hm]; decide
        simp [List.countP_append, h1, writesCounter]
      · have hresEv : ∀ ev ∈ resEvs,
            ev = Event.fOpen FPath.counter FMode.readM := by
          have h0 := resolveRunNumber_events cli.runNumberParam env.counterFile
          rw [hres] at h0
          exact h0
        have hsetup : List.countP writesCounter (setupEvents cli rn resEvs)
            = 0 := by
          rw [countP_setup cli rn resEvs writesCounter hresEv rfl]
          rfl
        have hpoll0 : List.countP writesCounter pollEvs = 0 := by
          rw [pollAux_countP cli.timeout env.ader env.elapsed
            fuel 0 pollEvs early j writesCounter rfl hpoll]
          cases early <;> rfl
        rcases hcase with ⟨hd, rfl⟩ | ⟨hd, rfl⟩
        · simp only [List.countP_append, hsetup, hpoll0]
          rfl
        · have hexp : List.countP writesCounter
              (if cli.save ≠ 0 then exportEvents rn else []) = 0 := by
            split <;> rfl
          simp only [List.countP_append, hsetup, hpoll0, hexp]
          rfl
    exact List.any_eq_false.mpr fun ev hm =>
      List.countP_eq_zero.mp hzero ev hm

/-- Witness for C6 on the fixture runs. -/
theorem c6_witness :
    resolveRunNumber (-1) (some "42")
      = ([Event.fOpen FPath.counter FMode.readM], Except.ok 42) ∧
    resolveRunNumber 7 none = ([], Except.ok 7) ∧
    (∃ err, runProgram cliA envM 1
      = some ⟨[Event.cmdQ Cmd.idn, Event.fOpen FPath.counter FMode.readM],
              some err, none, none⟩) ∧
    traceA.events.any writesCounter = false := by
  have h := c6_runNumber_resolution
  exact ⟨h.1, h.2.1 none,
    h.2.2.1 cliA envM 1 (by with_unfolding_all decide)
      (fun s hs => by simp [envM] at hs),
    h.2.2.2 cliA envA 1 traceA (by with_unfolding_all rfl)⟩

/-- Claim C7: whenever saving is requested the export phase runs regardless of
the terminal state: the prepare-all-segments directive is issued exactly once,
then exactly one save command, for channel 1, whose destination path embeds
the resolved run number, with a blocking operation-complete query after the
save; when saving is not requested no save or prepare command is issued. -/
theorem c7_export_phase (cli : Cli) (env : Env) (fuel : ℕ) (t : RunTrace)
    (rn : ℤ) (resEvs : List Event)
    (h : runProgram cli env fuel = some t) (he : t.error = none)
    (hres : resolveRunNumber cli.runNumberParam env.counterFile
      = (resEvs, Except.ok rn)) :
    (cli.save ≠ 0 →
      (exportEvents rn).IsInfix t.events ∧
      List.countP isSave t.events = 1 ∧
      List.countP isPrepare t.events = 1 ∧
      Event.cmdW (Cmd.saveWaveform 1 (savePath rn)) ∈ t.events) ∧
    (cli.save = 0 →
      List.countP isSave t.events = 0 ∧
      List.countP isPrepare t.events = 0) := by
  rcases runProgram_cases cli env fuel t h with
    ⟨resEvs', e, hres', rfl⟩ |
    ⟨resEvs', rn', pollEvs, early, j, hres', hpoll, hcase⟩
  · cases he
  · rw [hres] at hres'
    injection hres' with h1 h2
    injection h2 with h3
    subst h1
    subst h3
    have hresEv : ∀ ev ∈ resEvs,
        ev = Event.fOpen FPath.counter FMode.readM := by
      have h0 := resolveRunNumber_events cli.runNumberParam env.counterFile
      rw [hres] at h0
      exact h0
    rcases hcase with ⟨hd, rfl⟩ | ⟨hd, rfl⟩
    · cases he
    · have hsetupS : List.countP isSave (setupEvents cli rn resEvs) = 0 := by
        rw [countP_setup cli rn resEvs isSave hresEv rfl]
        rfl
      have hsetupP : List.countP isPrepare (setupEvents cli rn resEvs) = 0 := by
        rw [countP_setup cli rn resEvs isPrepare hresEv rfl]
        rfl
      have hpollS : List.countP isSave pollEvs = 0 := by
        rw [pollAux_countP cli.timeout env.ader env.elapsed
          fuel 0 pollEvs early j isSave rfl hpoll]
        cases early <;> rfl
      have hpollP : List.countP isPrepare pollEvs = 0 := by
        rw [pollAux_countP cli.timeout env.ader env.elapsed
          fuel 0 pollEvs early j isPrepare rfl hpoll]
        cases early <;> rfl
      constructor
      · intro hsave
        rw [if_pos hsave]
        refine ⟨⟨setupEvents cli rn resEvs ++ pollEvs
            ++ statusEvents "writing" true, statusEvents "ready" true,
            by simp [List.append_assoc]⟩, ?_, ?_, ?_⟩
        · simp only [List.countP_append, hsetupS, hpollS]
          rfl
        · simp only [List.countP_append, hsetupP, hpollP]
          rfl
        · exact List.mem_append.mpr (Or.inl (List.mem_append.mpr
            (Or.inr (List.Mem.tail _ (List.Mem.tail _ (List.Mem.head _))))))
      · intro hz
        rw [if_neg fun hcon => hcon hz]
        constructor
        · simp only [List.countP_append, hsetupS, hpollS]
          rfl
        · simp only [List.countP_append, hsetupP, hpollP]
          rfl

/-- Witness for C7 on the completed fixture run with saving requested. -/
theorem c7_witness :
    (exportEvents 42).IsInfix traceA.events ∧
    List.countP isSave traceA.events = 1 ∧
    List.countP isPrepare traceA.events = 1 ∧
    Event.cmdW (Cmd.saveWaveform 1 (savePath 42)) ∈ traceA.events :=
  (c7_export_phase cliA envA 1 traceA 42
    [Event.fOpen FPath.counter FMode.readM]
    (by with_unfolding_all rfl) (by with_unfolding_all decide)
    (by with_unfolding_all decide)).1 (by with_unfolding_all decide)

end Na22
